import Mathlib

/-!
Verification of the TPC-DI data-generation notebook
(`src/tools/data_generator.py`).

The notebook orchestrates three phases: an idempotency probe on the
destination directory, a supervised launch of the external `DIGen.jar`
generator, and a bulk copy of the generated files from local scratch
storage to the destination.  We embed the pure path computations
directly and model the effectful parts (filesystem, subprocess, Spark
SQL calls) as explicit world parameters; each run produces a trace of
observable events about which the properties are stated.
-/

namespace TPCDI

/-! ## Definitions -/

/-! ### Python `str.replace` (replace every occurrence, left to right)

`generate_data` computes each destination path as
`filename.replace(driver_out_path, os_blob_out_path)`; Python's
`str.replace` substitutes every non-overlapping occurrence scanning
left to right.  We embed it on the character list of the string (for a
nonempty pattern, which is the only way the notebook uses it). -/

def pyReplaceF (pat rep : List Char) : Nat → List Char → List Char
  | _, [] => []
  | 0, s => s
  | fuel + 1, c :: rest =>
    if pat.isPrefixOf (c :: rest) && !pat.isEmpty then
      rep ++ pyReplaceF pat rep fuel (rest.drop (pat.length - 1))
    else
      c :: pyReplaceF pat rep fuel rest

/-- Python `s.replace(pat, rep)` for nonempty `pat`, at `String` level.
The fuel `s.data.length` always suffices: each step consumes at least
one character. -/
def pyReplace (s pat rep : String) : String :=
  ⟨pyReplaceF pat.data rep.data s.data.length s.data⟩

/-- A pattern occurs somewhere (as a contiguous substring) in a list. -/
def hasInfix (pat : List Char) : List Char → Bool
  | [] => pat.isEmpty
  | c :: rest => pat.isPrefixOf (c :: rest) || hasInfix pat rest

/-- String-level occurrence test. -/
def strHasInfix (pat s : String) : Bool := hasInfix pat.data s.data

/-! ### Whitespace splitting (the `shlex.split` of the DIGen command line)

`DIGen` builds its command as a single string and splits it with
`shlex.split`; on a command whose tokens contain no whitespace or quote
characters, `shlex.split` is exactly splitting on runs of spaces. -/

/-- State of a right fold splitting on spaces: the token being built
and the completed tokens to the right. -/
def wsStep (c : Char) (acc : List Char × List (List Char)) :
    List Char × List (List Char) :=
  if c = ' ' then ([], acc.1 :: acc.2) else (c :: acc.1, acc.2)

def wsSplitCore (s : List Char) : List Char × List (List Char) :=
  s.foldr wsStep ([], [])

/-- Split on runs of spaces, discarding empty tokens. -/
def wsSplit (s : List Char) : List (List Char) :=
  ((wsSplitCore s).1 :: (wsSplitCore s).2).filter (fun t => !t.isEmpty)

/-- `wsSplit` at `String` level. -/
def wsSplitStr (s : String) : List String := (wsSplit s.data).map String.mk

/-- A token is nonempty and contains no space. -/
def isToken (t : List Char) : Bool := !t.isEmpty && t.all (· ≠ ' ')

/-- Join tokens with single spaces. -/
def wsJoin : List (List Char) → List Char
  | [] => []
  | [t] => t
  | t :: ts => t ++ ' ' :: wsJoin ts

/-! ### Directory of a path (`os.path.dirname`) -/

/-- Characters before the last slash of the list. -/
def dirnameL (s : List Char) : List Char :=
  ((s.reverse.dropWhile (· ≠ '/')).drop 1).reverse

/-- `os.path.dirname`: everything before the last `/` of the path. -/
def dirname (s : String) : String := ⟨dirnameL s.data⟩

/-- No slash occurs in the string. -/
def slashFree (s : String) : Bool := s.data.all (· ≠ '/')

/-! ### Data model

Observable side effects of a run.  Subprocess launches, stdin writes,
Spark SQL provisioning calls, `dbutils.fs.mkdirs`, `shutil.rmtree`,
`shutil.copytree` and per-file `shutil.copyfile` invocations each leave
an event; read-only probes (`os.path.exists`, `os.walk`) do not. -/

inductive Event where
  | javaVersionCheck
  | digenLaunch (args : List String) (cwd : String)
  | stdinWrite (s : String)
  | stdinFlush
  | stdoutRead
  | stderrRead
  | catalogExistsQuery (catalog : String)
  | createCatalog (catalog : String)
  | grantPrivileges (catalog : String)
  | createSchema (catalog schema : String)
  | createVolume (catalog schema volume : String)
  | mkdirsEv (path : String)
  | rmtreeEv (path : String)
  | copytreeEv (src dst : String)
  | copyFileEv (src dst : String)
deriving DecidableEq, Repr

/-- Per-file transfer result (the `Failed` reason string is dropped). -/
inductive TransferOutcome where
  | Moved
  | Failed
deriving DecidableEq, Repr

/-- Terminal states of `generate_data`: skipped via the idempotency
gate, the success banner, or the zero-files warning banner. -/
inductive RunOutcome where
  | Skipped
  | CompletedSuccess
  | CompletedWithWarnings
deriving DecidableEq, Repr

/-- One `(root, dirs, files)` triple yielded by `os.walk`. -/
structure WalkEntry where
  root : String
  dirs : List String
  files : List String

/-- Filesystem facts consulted by the existence check on the
destination: `os.path.exists`, the result of walking the tree (an
`error` models an exception raised while checking the contents), and
the `os.path.isfile` predicate. -/
structure ProbeWorld where
  pathExists : Bool
  walkResult : Except String (List WalkEntry)
  isfile : String → Bool

/-- Behaviour of the DIGen child process. -/
structure ChildProcess where
  exitCode : Int
  stdoutLines : List String
  stderrOutput : String

/-- Resolved widget parameters (all required globals present). -/
structure Config where
  scale_factor : String
  catalog : String
  tpcdi_directory : String
  workspace_src_path : String
  UC_enabled : Bool
  lighthouse : Bool

/-- The remaining ambient facts a run consults: directories existing
for `copy_directory`, presence of `DIGen.jar`, the child process, the
walk of the driver output directory (file paths relative to it, and its
first-level subdirectories — `none` models `StopIteration`), the
catalog-existence query answer, `sc.defaultParallelism`, and which
per-file copies raise. -/
structure World where
  probe : ProbeWorld
  fsDirs : List String
  jarExists : Bool
  child : ChildProcess
  driverFiles : List String
  driverSubdirs : Option (List String)
  catalogExists : Bool
  defaultParallelism : Nat
  copyFails : String → Bool

/-! ### Path planning (lines 120-135 of the notebook) -/

def DRIVER_ROOT : String := "/local_disk0"

def tpcdi_tmp_path : String := "/tmp/tpcdi/"

def driver_tmp_path : String := DRIVER_ROOT ++ tpcdi_tmp_path ++ "datagen/"

def driver_out_path (scale_factor : String) : String :=
  DRIVER_ROOT ++ tpcdi_tmp_path ++ "sf=" ++ scale_factor

/-- `blob_out_path` before the legacy-mode rewriting. -/
def blob_out_path0 (cfg : Config) : String :=
  cfg.tpcdi_directory ++ "sf=" ++ cfg.scale_factor

/-- OS-addressable destination: the volume path under Unity Catalog,
else the FUSE form `/dbfs<path>`. -/
def os_blob_out_path (cfg : Config) : String :=
  if cfg.UC_enabled then blob_out_path0 cfg else "/dbfs" ++ blob_out_path0 cfg

/-- Logical destination: unchanged under Unity Catalog, else the URI
form `dbfs:<path>`. -/
def blob_out_path (cfg : Config) : String :=
  if cfg.UC_enabled then blob_out_path0 cfg else "dbfs:" ++ blob_out_path0 cfg

/-! ### The helper functions of the notebook -/

/-- `move_file` (lines 51-53): wraps `shutil.copyfile` and returns a
message. -/
def move_file (source_location target_location : String) : String :=
  "Finished moving " ++ source_location ++ " to " ++ target_location

/-- Result of `copy_directory`: updated filesystem, emitted events, and
the returned value (`none` on a caught exception). -/
structure CopyDirResult where
  fs : List String
  events : List Event
  result : Option String

/-- `shutil.rmtree` on the directory-set model. -/
def rmtreeFS (fs : List String) (p : String) : List String := fs.filter (· ≠ p)

/-- `copy_directory` (lines 55-67).  `shutil.copytree` raises
`FileNotFoundError` when the source is absent and `FileExistsError`
when the target already exists; both are caught, printing a message and
returning `None`.  With `overwrite` and an existing target, the target
tree is removed first. -/
def copy_directory (fs : List String) (source_dir target_dir : String)
    (overwrite : Bool) : CopyDirResult :=
  let fs1 := if fs.contains target_dir && overwrite then rmtreeFS fs target_dir else fs
  let evs : List Event :=
    if fs.contains target_dir && overwrite then [Event.rmtreeEv target_dir] else []
  if !fs1.contains source_dir then
    { fs := fs1, events := evs, result := none }
  else if fs1.contains target_dir then
    { fs := fs1, events := evs, result := none }
  else
    { fs := target_dir :: fs1,
      events := evs ++ [Event.copytreeEv source_dir target_dir],
      result := some target_dir }

/-- The command string built by `DIGen` (line 282). -/
def digenCmd (digen_path scale_factor output_path : String) : String :=
  "java -Xmx2g -jar " ++ digen_path ++ "DIGen.jar -sf " ++ scale_factor
    ++ " -o " ++ output_path

/-- Events of `DIGen` (lines 262-337): a `java -version` probe, then —
only if `DIGen.jar` exists under `digen_path` — the launch of the
shlex-split command with working directory `digen_path`, the two
flushed stdin lines, the stdout drain loop, and the stderr drain.  When
the jar is missing the function prints an error and returns early. -/
def DIGenEvents (jarExists : Bool) (child : ChildProcess)
    (digen_path scale_factor output_path : String) : List Event :=
  Event.javaVersionCheck ::
    (if jarExists then
      [Event.digenLaunch (wsSplitStr (digenCmd digen_path scale_factor output_path))
          digen_path,
        Event.stdinWrite "\n", Event.stdinFlush,
        Event.stdinWrite "YES\n", Event.stdinFlush]
      ++ child.stdoutLines.map (fun _ => Event.stdoutRead)
      ++ [Event.stderrRead]
    else [])

/-- The Unity Catalog provisioning block (lines 181-194): an
information-schema query, `CREATE CATALOG` plus `GRANT` when the query
found nothing, then `CREATE DATABASE` and `CREATE VOLUME`. -/
def provisioningEvents (catalog : String) (catalogExists : Bool) : List Event :=
  Event.catalogExistsQuery catalog ::
    ((if catalogExists then []
      else [Event.createCatalog catalog, Event.grantPrivileges catalog]) ++
      [Event.createSchema catalog "tpcdi_raw_data",
       Event.createVolume catalog "tpcdi_raw_data" "tpcdi_volume"])

/-- The destination directories `generate_data` creates (lines
210-224): the root, then one directory per first-level subdirectory of
the driver output (`none` models the caught `StopIteration`). -/
def createdDirs (blob : String) (subdirs : Option (List String)) : List String :=
  blob :: (subdirs.getD []).map (fun d => blob ++ "/" ++ d)

/-- `shutil.copyfile` opens the target for writing, which requires the
target's parent directory to exist; with a destination that starts
empty, a per-file copy can succeed only when the parent of the computed
target path is among the directories the run created. -/
def copyfileSucceeds (dirs : List String) (target : String) : Bool :=
  dirs.contains (dirname target)

/-- The existence check of `generate_data` (lines 140-162):
`data_exists` stays `False` unless the OS path exists and a recursive
walk, completing without an exception, finds at least one regular
file. -/
def checkDataExists (w : ProbeWorld) : Bool :=
  if w.pathExists then
    match w.walkResult with
    | Except.error _ => false
    | Except.ok entries =>
      entries.any fun e => e.files.any fun f => w.isfile (e.root ++ "/" ++ f)
  else false

/-- Result of one `generate_data` run. -/
structure RunResult where
  trace : List Event
  outcome : RunOutcome
  filenames : List String
  outcomes : List TransferOutcome
  completedCount : Nat
  threads : Nat

/-- `generate_data` (lines 69-260).  After the existence gate, the run
copies the tool directory, invokes `DIGen` (whose result is never
consulted), provisions Unity Catalog resources whenever the catalog is
not `hive_metastore`, scans the driver output, creates the destination
root and first-level subdirectories, and copies every found file to
`filename.replace(driver_out_path, os_blob_out_path)` on a thread pool;
`completed_count` is incremented only when `future.result()` does not
raise. -/
def generate_data (cfg : Config) (w : World) : RunResult :=
  let driver_out := driver_out_path cfg.scale_factor
  let blob := blob_out_path cfg
  let os_blob := os_blob_out_path cfg
  let data_exists := checkDataExists w.probe
  if data_exists then
    { trace := [], outcome := RunOutcome.Skipped, filenames := [], outcomes := [],
      completedCount := 0, threads := 0 }
  else
    let cd := copy_directory w.fsDirs (cfg.workspace_src_path ++ "/tools/datagen")
      driver_tmp_path true
    let digenEvs := DIGenEvents w.jarExists w.child driver_tmp_path cfg.scale_factor
      driver_out
    let ucEvs := if cfg.catalog ≠ "hive_metastore" then
        provisioningEvents cfg.catalog w.catalogExists
      else []
    let filenames := w.driverFiles.map fun rel => driver_out ++ "/" ++ rel
    let mkdirEvs := (createdDirs blob w.driverSubdirs).map Event.mkdirsEv
    let threads := if cfg.lighthouse then 8 else w.defaultParallelism
    if filenames.length > 0 then
      { trace := cd.events ++ digenEvs ++ ucEvs ++ mkdirEvs ++
          filenames.map (fun f => Event.copyFileEv f (pyReplace f driver_out os_blob)),
        outcome := RunOutcome.CompletedSuccess,
        filenames := filenames,
        outcomes := filenames.map fun f =>
          if w.copyFails f then TransferOutcome.Failed else TransferOutcome.Moved,
        completedCount := (filenames.filter fun f => !w.copyFails f).length,
        threads := threads }
    else
      { trace := cd.events ++ digenEvs ++ ucEvs ++ mkdirEvs,
        outcome := RunOutcome.CompletedWithWarnings,
        filenames := filenames, outcomes := [], completedCount := 0,
        threads := threads }

/-! ### Event observers -/

def isLaunchEv : Event → Bool
  | Event.digenLaunch _ _ => true
  | _ => false

def isMkdirsEv : Event → Bool
  | Event.mkdirsEv _ => true
  | _ => false

def isCopyEv : Event → Bool
  | Event.copyFileEv _ _ => true
  | _ => false

def isProvisioningEv : Event → Bool
  | Event.catalogExistsQuery _ => true
  | Event.createCatalog _ => true
  | Event.grantPrivileges _ => true
  | Event.createSchema _ _ => true
  | Event.createVolume _ _ _ => true
  | _ => false

/-- Number of per-file copy invocations in a trace. -/
def copyCount (t : List Event) : Nat := (t.filter isCopyEv).length

/-- The manifest the run migrates: one absolute path per file found
under the driver output directory. -/
def runFilenames (cfg : Config) (w : World) : List String :=
  w.driverFiles.map fun rel => driver_out_path cfg.scale_factor ++ "/" ++ rel

/-! ### Concrete scenarios -/

/-- Unity Catalog configuration at scale factor 1. -/
def cfg1 : Config :=
  { scale_factor := "1", catalog := "tpcdi",
    tpcdi_directory := "/Volumes/tpcdi/tpcdi_raw_data/tpcdi_volume/",
    workspace_src_path := "/Workspace/repo/src", UC_enabled := true,
    lighthouse := false }

/-- The same configuration with Unity Catalog disabled. -/
def cfg4 : Config := { cfg1 with UC_enabled := false }

/-- Probe over an absent destination. -/
def probeAbsent : ProbeWorld :=
  { pathExists := false, walkResult := Except.ok [], isfile := fun _ => true }

/-- Probe whose recursive walk raises. -/
def probeErr : ProbeWorld :=
  { pathExists := true, walkResult := Except.error "io-error",
    isfile := fun _ => true }

/-- Probe over a destination already holding one regular file. -/
def probeFull : ProbeWorld :=
  { pathExists := true,
    walkResult := Except.ok
      [{ root := "/Volumes/tpcdi/tpcdi_raw_data/tpcdi_volume/sf=1", dirs := [],
         files := ["f.txt"] }],
    isfile := fun _ => true }

/-- A run whose generator exits with code 1 after writing one file. -/
def w1 : World :=
  { probe := probeAbsent, fsDirs := ["/Workspace/repo/src/tools/datagen"],
    jarExists := true,
    child := { exitCode := 1, stdoutLines := ["line"], stderrOutput := "" },
    driverFiles := ["Batch1/f.txt"], driverSubdirs := some ["Batch1"],
    catalogExists := false, defaultParallelism := 8, copyFails := fun _ => false }

/-- A run with a missing `DIGen.jar` and one stale file under the
driver output directory. -/
def w2 : World := { w1 with jarExists := false }

/-- A run where the single file copy raises. -/
def w3 : World := { w1 with copyFails := fun _ => true }

/-- A run against a pre-populated destination. -/
def w8 : World := { w1 with probe := probeFull }

/-! ## Theorems -/

/-! ### Generic list helpers -/

/-- Filtering a mapped list whose image never satisfies the predicate. -/
theorem filter_map_eq_nil {α β : Type} (p : β → Bool) (f : α → β) (l : List α)
    (h : ∀ a, p (f a) = false) : (l.map f).filter p = [] := by
  induction l with
  | nil => rfl
  | cons a t ih => simp [List.filter, h a, ih]

/-- Filtering a mapped list whose image always satisfies the predicate. -/
theorem filter_map_eq_self {α β : Type} (p : β → Bool) (f : α → β) (l : List α)
    (h : ∀ a, p (f a) = true) : (l.map f).filter p = l.map f := by
  induction l with
  | nil => rfl
  | cons a t ih => simp [List.filter, h a, ih]

/-- `any` over a mapped list whose image never satisfies the predicate. -/
theorem any_map_eq_false {α β : Type} (p : β → Bool) (f : α → β) (l : List α)
    (h : ∀ a, p (f a) = false) : (l.map f).any p = false := by
  induction l with
  | nil => rfl
  | cons a t ih => simp [List.any, h a, ih]

theorem isPrefixOf_append_self (p x : List Char) : p.isPrefixOf (p ++ x) = true := by
  induction p with
  | nil => simp [List.isPrefixOf]
  | cons a t ih => simp [List.isPrefixOf, ih]

/-- When the pattern occurs nowhere, any fuel leaves the string
unchanged. -/
theorem pyReplaceF_of_not_hasInfix (pat rep : List Char) (fuel : Nat) (s : List Char)
    (h : hasInfix pat s = false) : pyReplaceF pat rep fuel s = s := by
  induction fuel generalizing s with
  | zero => cases s <;> rfl
  | succ f ih =>
    cases s with
    | nil => rfl
    | cons c rest =>
      rw [hasInfix] at h
      simp only [Bool.or_eq_false_iff] at h
      rw [pyReplaceF]
      simp [h.1, ih rest h.2]

/-- On a string of the form `pat ++ suffix` where `pat` is nonempty and
does not reoccur inside `suffix`, replace-all rewrites exactly the
leading occurrence (any positive fuel suffices). -/
theorem pyReplaceF_prefix (pat rep suffix : List Char) (fuel : Nat) (hne : pat ≠ [])
    (h : hasInfix pat suffix = false) :
    pyReplaceF pat rep (fuel + 1) (pat ++ suffix) = rep ++ suffix := by
  match pat, hne, h with
  | c :: pt, _, h =>
    rw [List.cons_append, pyReplaceF]
    have hpre : (c :: pt).isPrefixOf (c :: pt ++ suffix) = true := by
      simp
    have hemp : (c :: pt).isEmpty = false := rfl
    simp only [← List.cons_append, hpre, hemp, Bool.not_false, Bool.and_self, if_pos]
    have hdrop : (pt ++ suffix).drop ((c :: pt).length - 1) = suffix := by
      simp [List.drop_left]
    rw [hdrop, pyReplaceF_of_not_hasInfix (c :: pt) rep fuel suffix h]

theorem foldr_wsStep_nospace (t : List Char) (acc : List Char × List (List Char))
    (hl : ∀ c ∈ t, c ≠ ' ') : t.foldr wsStep acc = (t ++ acc.1, acc.2) := by
  induction t with
  | nil => rfl
  | cons c tl ih =>
    rw [List.foldr_cons, ih fun x hx => hl x (by simp [hx])]
    have hc : ¬(c = ' ') := hl c (by simp)
    simp [wsStep, hc]

theorem wsSplitCore_token_cons (t rest : List Char) (hl : ∀ c ∈ t, c ≠ ' ') :
    wsSplitCore (t ++ ' ' :: rest) =
      (t, (wsSplitCore rest).1 :: (wsSplitCore rest).2) := by
  rw [wsSplitCore, List.foldr_append, List.foldr_cons]
  have hsp : wsStep ' ' (List.foldr wsStep ([], []) rest) =
      ([], (wsSplitCore rest).1 :: (wsSplitCore rest).2) := by
    simp [wsStep, wsSplitCore]
  rw [hsp, foldr_wsStep_nospace t _ hl]
  simp

theorem wsSplit_single (t : List Char) (ht : isToken t = true) :
    wsSplit t = [t] := by
  simp only [isToken, Bool.and_eq_true, List.all_eq_true, decide_eq_true_eq,
    Bool.not_eq_true', List.isEmpty_eq_false] at ht
  rw [wsSplit, wsSplitCore, foldr_wsStep_nospace t ([], []) ht.2]
  simp [List.filter_cons, ht.1]

theorem wsSplit_token_cons (t rest : List Char) (ht : isToken t = true) :
    wsSplit (t ++ ' ' :: rest) = t :: wsSplit rest := by
  simp only [isToken, Bool.and_eq_true, List.all_eq_true, decide_eq_true_eq,
    Bool.not_eq_true', List.isEmpty_eq_false] at ht
  rw [wsSplit, wsSplitCore_token_cons t rest ht.2]
  rw [wsSplit]
  simp [List.filter_cons, ht.1]

theorem wsSplit_wsJoin (ts : List (List Char)) (h : ∀ t ∈ ts, isToken t = true) :
    wsSplit (wsJoin ts) = ts := by
  match ts with
  | [] => rfl
  | [t] =>
    have : wsJoin [t] = t := rfl
    rw [this, wsSplit_single t (h t (by simp))]
  | t :: t2 :: rest =>
    have hj : wsJoin (t :: t2 :: rest) = t ++ ' ' :: wsJoin (t2 :: rest) := rfl
    rw [hj, wsSplit_token_cons t _ (h t (by simp)),
      wsSplit_wsJoin (t2 :: rest) (fun x hx => h x (by simp [hx]))]

theorem dropWhile_append_all_true {α : Type} (p : α → Bool) (l r : List α)
    (hl : ∀ c ∈ l, p c = true) : (l ++ r).dropWhile p = r.dropWhile p := by
  induction l with
  | nil => rfl
  | cons c t ih =>
    rw [List.cons_append, List.dropWhile_cons, hl c (by simp)]
    simp only [if_pos]
    rw [ih fun x hx => hl x (by simp [hx])]

/-- For a slash-free final component, `dirname` strips exactly that
component: the directory of `x ++ "/" ++ name` is `x`. -/
theorem dirnameL_append (x name : List Char) (h : ∀ c ∈ name, c ≠ '/') :
    dirnameL (x ++ '/' :: name) = x := by
  rw [dirnameL, List.reverse_append, List.reverse_cons, List.append_assoc]
  have hrev : ∀ c ∈ name.reverse, (fun y => decide (y ≠ '/')) c = true :=
    fun c hc => by simp [h c (List.mem_reverse.mp hc)]
  rw [dropWhile_append_all_true (fun y => decide (y ≠ '/')) name.reverse
    (['/'] ++ x.reverse) hrev]
  simp [List.dropWhile_cons]

theorem string_data_append (a b : String) : (a ++ b).data = a.data ++ b.data := rfl

theorem dirname_append_slashFree (x name : String) (h : slashFree name = true) :
    dirname (x ++ "/" ++ name) = x := by
  have hd : (x ++ "/" ++ name).data = x.data ++ '/' :: name.data := by
    rw [string_data_append, string_data_append, List.append_assoc]
    rfl
  have hslash : ∀ c ∈ name.data, c ≠ '/' := by
    intro c hc
    simp only [slashFree, List.all_eq_true, decide_eq_true_eq] at h
    exact h c hc
  rw [dirname, hd, dirnameL_append x.data name.data hslash]

/-! ### Structural lemmas about one run -/

theorem copy_directory_events_shape (fs : List String) (src tgt : String) (ov : Bool) :
    ∀ e ∈ (copy_directory fs src tgt ov).events,
      e = Event.rmtreeEv tgt ∨ e = Event.copytreeEv src tgt := by
  intro e he
  rw [copy_directory] at he
  by_cases h1 : (fs.contains tgt && ov) = true <;>
    by_cases h2 : (!(if fs.contains tgt && ov then rmtreeFS fs tgt else fs).contains src) = true <;>
      by_cases h3 : ((if fs.contains tgt && ov then rmtreeFS fs tgt else fs).contains tgt) = true <;>
        simp_all
  all_goals tauto

theorem copy_directory_events_flags (fs : List String) (src tgt : String) (ov : Bool) :
    (copy_directory fs src tgt ov).events.filter isCopyEv = []
    ∧ (copy_directory fs src tgt ov).events.any isProvisioningEv = false
    ∧ (copy_directory fs src tgt ov).events.any isLaunchEv = false
    ∧ (copy_directory fs src tgt ov).events.any isMkdirsEv = false := by
  have hs := copy_directory_events_shape fs src tgt ov
  refine ⟨List.filter_eq_nil_iff.mpr ?_, List.any_eq_false.mpr ?_,
    List.any_eq_false.mpr ?_, List.any_eq_false.mpr ?_⟩ <;>
    intro e he <;> rcases hs e he with h | h <;> subst h <;>
      simp [isCopyEv, isProvisioningEv, isLaunchEv, isMkdirsEv]

theorem DIGenEvents_flags (jar : Bool) (child : ChildProcess) (p sf o : String) :
    (DIGenEvents jar child p sf o).filter isCopyEv = []
    ∧ (DIGenEvents jar child p sf o).any isProvisioningEv = false
    ∧ (DIGenEvents jar child p sf o).any isMkdirsEv = false := by
  have h1 : (child.stdoutLines.map fun _ => Event.stdoutRead).filter isCopyEv = [] :=
    filter_map_eq_nil _ _ _ (fun _ => rfl)
  have h2 : (child.stdoutLines.map fun _ => Event.stdoutRead).any isProvisioningEv = false :=
    any_map_eq_false _ _ _ (fun _ => rfl)
  have h3 : (child.stdoutLines.map fun _ => Event.stdoutRead).any isMkdirsEv = false :=
    any_map_eq_false _ _ _ (fun _ => rfl)
  cases jar <;>
    refine ⟨?_, ?_, ?_⟩ <;>
      simp [DIGenEvents, isCopyEv, isProvisioningEv, isMkdirsEv,
        List.filter_append, List.any_append, h1, h2, h3]

theorem DIGenEvents_any_launch (jar : Bool) (child : ChildProcess) (p sf o : String) :
    (DIGenEvents jar child p sf o).any isLaunchEv = jar := by
  have h1 : (child.stdoutLines.map fun _ => Event.stdoutRead).any isLaunchEv = false :=
    any_map_eq_false _ _ _ (fun _ => rfl)
  cases jar <;> simp [DIGenEvents, isLaunchEv, List.any_append, h1]

theorem provisioningEvents_flags (c : String) (b : Bool) :
    (provisioningEvents c b).filter isCopyEv = []
    ∧ (provisioningEvents c b).any isLaunchEv = false
    ∧ (provisioningEvents c b).any isMkdirsEv = false
    ∧ (provisioningEvents c b).any isProvisioningEv = true := by
  cases b <;>
    refine ⟨?_, ?_, ?_, ?_⟩ <;>
      simp [provisioningEvents, isCopyEv, isLaunchEv, isMkdirsEv, isProvisioningEv]

/-- When the destination already holds data, the run does nothing. -/
theorem generate_data_skip (cfg : Config) (w : World)
    (h : checkDataExists w.probe = true) :
    generate_data cfg w =
      { trace := [], outcome := RunOutcome.Skipped, filenames := [], outcomes := [],
        completedCount := 0, threads := 0 } := by
  rw [generate_data]
  simp [h]

theorem generate_data_trace (cfg : Config) (w : World)
    (h : checkDataExists w.probe = false) :
    (generate_data cfg w).trace =
      (copy_directory w.fsDirs (cfg.workspace_src_path ++ "/tools/datagen")
        driver_tmp_path true).events
      ++ DIGenEvents w.jarExists w.child driver_tmp_path cfg.scale_factor
          (driver_out_path cfg.scale_factor)
      ++ (if cfg.catalog ≠ "hive_metastore" then
            provisioningEvents cfg.catalog w.catalogExists else [])
      ++ (createdDirs (blob_out_path cfg) w.driverSubdirs).map Event.mkdirsEv
      ++ (runFilenames cfg w).map
          (fun f => Event.copyFileEv f
            (pyReplace f (driver_out_path cfg.scale_factor) (os_blob_out_path cfg))) := by
  rw [generate_data, runFilenames]
  simp only [h, Bool.false_eq_true, if_false]
  by_cases hl : 0 < w.driverFiles.length
  · simp [hl]
  · have hfn : w.driverFiles = [] := List.length_eq_zero.mp (by omega)
    simp [hl, hfn]

theorem generate_data_filenames (cfg : Config) (w : World)
    (h : checkDataExists w.probe = false) :
    (generate_data cfg w).filenames = runFilenames cfg w := by
  rw [generate_data, runFilenames]
  simp only [h, Bool.false_eq_true, if_false]
  by_cases hl : 0 < w.driverFiles.length <;> simp [hl]

theorem generate_data_outcomes (cfg : Config) (w : World)
    (h : checkDataExists w.probe = false) :
    (generate_data cfg w).outcomes = (runFilenames cfg w).map
      (fun f => if w.copyFails f then TransferOutcome.Failed
        else TransferOutcome.Moved) := by
  rw [generate_data, runFilenames]
  simp only [h, Bool.false_eq_true, if_false]
  by_cases hl : 0 < w.driverFiles.length
  · simp [hl]
  · have hfn : w.driverFiles = [] := List.length_eq_zero.mp (by omega)
    simp [hl, hfn]

theorem generate_data_completedCount (cfg : Config) (w : World)
    (h : checkDataExists w.probe = false) :
    (generate_data cfg w).completedCount =
      ((runFilenames cfg w).filter fun f => !w.copyFails f).length := by
  rw [generate_data, runFilenames]
  simp only [h, Bool.false_eq_true, if_false]
  by_cases hl : 0 < w.driverFiles.length
  · simp [hl]
  · have hfn : w.driverFiles = [] := List.length_eq_zero.mp (by omega)
    simp [hl, hfn]

theorem generate_data_not_skipped (cfg : Config) (w : World)
    (h : checkDataExists w.probe = false) :
    (generate_data cfg w).outcome ≠ RunOutcome.Skipped := by
  rw [generate_data]
  simp only [h, Bool.false_eq_true, if_false]
  by_cases hl : 0 < w.driverFiles.length <;> simp [hl]

/-! ### Counting transfer outcomes -/

theorem count_moved_eq (l : List String) (fails : String → Bool) :
    ((l.map fun f => if fails f then TransferOutcome.Failed
      else TransferOutcome.Moved).count TransferOutcome.Moved) =
      (l.filter fun f => !fails f).length := by
  induction l with
  | nil => rfl
  | cons a t ih =>
    by_cases ha : fails a = true <;>
      simp [List.count_cons, List.filter_cons, ha, ih]

theorem count_failed_eq (l : List String) (fails : String → Bool) :
    ((l.map fun f => if fails f then TransferOutcome.Failed
      else TransferOutcome.Moved).count TransferOutcome.Failed) =
      (l.filter fun f => fails f).length := by
  induction l with
  | nil => rfl
  | cons a t ih =>
    by_cases ha : fails a = true <;>
      simp [List.count_cons, List.filter_cons, ha, ih]

theorem count_moved_add_failed (l : List String) (fails : String → Bool) :
    ((l.map fun f => if fails f then TransferOutcome.Failed
      else TransferOutcome.Moved).count TransferOutcome.Moved) +
    ((l.map fun f => if fails f then TransferOutcome.Failed
      else TransferOutcome.Moved).count TransferOutcome.Failed) = l.length := by
  induction l with
  | nil => rfl
  | cons a t ih =>
    by_cases ha : fails a = true <;>
      simp [List.count_cons, ha] <;> omega

/-! ### Whole-trace observations -/

/-- Exactly one per-file copy is invoked per file found under the
driver output directory, whatever the rest of the world looks like. -/
theorem copyCount_trace (cfg : Config) (w : World)
    (h : checkDataExists w.probe = false) :
    copyCount (generate_data cfg w).trace = w.driverFiles.length := by
  rw [copyCount, generate_data_trace cfg w h]
  simp only [List.filter_append, List.length_append]
  rw [(copy_directory_events_flags w.fsDirs (cfg.workspace_src_path ++ "/tools/datagen")
      driver_tmp_path true).1]
  rw [(DIGenEvents_flags w.jarExists w.child driver_tmp_path cfg.scale_factor
      (driver_out_path cfg.scale_factor)).1]
  have huc : (if cfg.catalog ≠ "hive_metastore" then
      provisioningEvents cfg.catalog w.catalogExists else []).filter isCopyEv = [] := by
    by_cases hc : cfg.catalog = "hive_metastore"
    · simp [hc]
    · simp only [ne_eq, hc, not_false_iff, if_pos]
      exact (provisioningEvents_flags cfg.catalog w.catalogExists).1
  rw [huc]
  rw [filter_map_eq_nil isCopyEv Event.mkdirsEv _ (fun _ => rfl)]
  rw [filter_map_eq_self isCopyEv
    (fun f => Event.copyFileEv f
      (pyReplace f (driver_out_path cfg.scale_factor) (os_blob_out_path cfg)))
    (runFilenames cfg w) (fun _ => rfl)]
  simp [runFilenames]

/-- The generator subprocess launch appears in the trace exactly when
the jar was present. -/
theorem any_launch_trace (cfg : Config) (w : World)
    (h : checkDataExists w.probe = false) :
    (generate_data cfg w).trace.any isLaunchEv = w.jarExists := by
  rw [generate_data_trace cfg w h]
  simp only [List.any_append]
  rw [(copy_directory_events_flags w.fsDirs (cfg.workspace_src_path ++ "/tools/datagen")
      driver_tmp_path true).2.2.1]
  rw [DIGenEvents_any_launch]
  have huc : (if cfg.catalog ≠ "hive_metastore" then
      provisioningEvents cfg.catalog w.catalogExists else []).any isLaunchEv = false := by
    by_cases hc : cfg.catalog = "hive_metastore"
    · simp [hc]
    · simp only [ne_eq, hc, not_false_iff, if_pos]
      exact (provisioningEvents_flags cfg.catalog w.catalogExists).2.1
  rw [huc]
  rw [any_map_eq_false isLaunchEv Event.mkdirsEv _ (fun _ => rfl)]
  rw [any_map_eq_false isLaunchEv
    (fun f => Event.copyFileEv f
      (pyReplace f (driver_out_path cfg.scale_factor) (os_blob_out_path cfg)))
    (runFilenames cfg w) (fun _ => rfl)]
  simp

/-- Every run that passes the existence gate performs the
`java -version` probe. -/
theorem javaVersionCheck_mem_trace (cfg : Config) (w : World)
    (h : checkDataExists w.probe = false) :
    Event.javaVersionCheck ∈ (generate_data cfg w).trace := by
  rw [generate_data_trace cfg w h]
  simp [DIGenEvents]

/-- Every run that passes the existence gate creates the destination
root directory. -/
theorem any_mkdirs_trace (cfg : Config) (w : World)
    (h : checkDataExists w.probe = false) :
    (generate_data cfg w).trace.any isMkdirsEv = true := by
  rw [generate_data_trace cfg w h]
  have hroot : ((createdDirs (blob_out_path cfg) w.driverSubdirs).map
      Event.mkdirsEv).any isMkdirsEv = true := by
    rw [createdDirs]
    simp [isMkdirsEv]
  simp [List.any_append, hroot]

/-- Filtering preserves a negative membership test. -/
theorem contains_filter_false (fs : List String) (p : String → Bool) (a : String)
    (h : fs.contains a = false) : (fs.filter p).contains a = false := by
  cases hcc : (fs.filter p).contains a
  · rfl
  · exfalso
    have hm : a ∈ fs.filter p := by simpa using hcc
    have hmem : a ∈ fs := (List.mem_filter.mp hm).1
    have : fs.contains a = true := by simpa using hmem
    rw [this] at h
    cases h

theorem string_mk_data (s : String) : String.mk s.data = s := rfl

theorem isToken_of_nonempty_nospace (l : List Char) (h1 : l ≠ [])
    (h2 : l.all (· ≠ ' ') = true) : isToken l = true := by
  rw [isToken]
  simp only [Bool.and_eq_true, Bool.not_eq_true', List.isEmpty_eq_false]
  exact ⟨h1, h2⟩

/-- The DIGen command string is the space-join of its eight tokens. -/
theorem digenCmd_data (p sf o : String) :
    (digenCmd p sf o).data =
      wsJoin ["java".data, "-Xmx2g".data, "-jar".data, p.data ++ "DIGen.jar".data,
        "-sf".data, sf.data, "-o".data, o.data] := by
  rw [digenCmd]
  simp only [string_data_append]
  simp [wsJoin, List.append_assoc, List.cons_append]

/-! ### The claims -/

/-- C1, counterexample: with the generator exiting 1 and one file
present under the driver output directory, the run still performs a
per-file copy and ends in the success banner — there is no
`GenerationFailed` terminal state and migration is not skipped. -/
theorem nonzero_exit_still_migrates_cex :
    w1.child.exitCode = 1
    ∧ copyCount (generate_data cfg1 w1).trace = 1
    ∧ (generate_data cfg1 w1).outcome = RunOutcome.CompletedSuccess := by
  refine ⟨rfl, by decide, by decide⟩

/-- C1 (amended): a nonzero generator exit code does not halt the
orchestrator — `generate_data` never consults it.  Whenever the
existence gate reports no data, migration proceeds and issues exactly
one copy invocation per file found under the driver output directory,
for every child-process behaviour (in particular every exit code); zero
copies happen only when no files were found. -/
theorem migration_independent_of_exit_code (cfg : Config) (w : World)
    (h : checkDataExists w.probe = false) :
    copyCount (generate_data cfg w).trace = w.driverFiles.length
    ∧ ∀ child : ChildProcess,
        copyCount (generate_data cfg { w with child := child }).trace =
          w.driverFiles.length := by
  exact ⟨copyCount_trace cfg w h,
    fun child => copyCount_trace cfg { w with child := child } h⟩

theorem migration_independent_of_exit_code_witness :
    checkDataExists w1.probe = false
    ∧ copyCount (generate_data cfg1 w1).trace = w1.driverFiles.length :=
  ⟨by decide, (migration_independent_of_exit_code cfg1 w1 (by decide)).1⟩

/-- C2, counterexample: with `DIGen.jar` absent, the generator is
indeed never launched, but the run is not fatal: the destination root
is still created and the stale file under the driver output directory
is still copied. -/
theorem missing_jar_still_migrates_cex :
    w2.jarExists = false
    ∧ (generate_data cfg1 w2).trace.any isLaunchEv = false
    ∧ (generate_data cfg1 w2).trace.any isMkdirsEv = true
    ∧ copyCount (generate_data cfg1 w2).trace = 1 := by
  refine ⟨rfl, by decide, by decide, by decide⟩

/-- C2 (amended): when `DIGen.jar` is absent the runner returns early
without launching the generator subprocess (the `java -version` probe
subprocess still runs first), but this is not fatal for the run:
`generate_data` proceeds to the migration phase, creating the
destination directories and copying every file present under the
driver output directory. -/
theorem missing_jar_skips_launch_but_run_continues (cfg : Config) (w : World)
    (h : checkDataExists w.probe = false) (hjar : w.jarExists = false) :
    (generate_data cfg w).trace.any isLaunchEv = false
    ∧ Event.javaVersionCheck ∈ (generate_data cfg w).trace
    ∧ (generate_data cfg w).trace.any isMkdirsEv = true
    ∧ copyCount (generate_data cfg w).trace = w.driverFiles.length := by
  refine ⟨?_, javaVersionCheck_mem_trace cfg w h, any_mkdirs_trace cfg w h,
    copyCount_trace cfg w h⟩
  rw [any_launch_trace cfg w h, hjar]

theorem missing_jar_skips_launch_but_run_continues_witness :
    (checkDataExists w2.probe = false ∧ w2.jarExists = false)
    ∧ (generate_data cfg1 w2).trace.any isLaunchEv = false :=
  ⟨⟨by decide, by decide⟩,
    (missing_jar_skips_launch_but_run_continues cfg1 w2 (by decide) (by decide)).1⟩

/-- C3, counterexample: one file whose copy raises.  The run records
one attempted transfer, but the progress counter (`completed_count`) is
`0`, not `1`: failures are not tallied, so the running count does not
satisfy `succeeded + failed == K`. -/
theorem completed_count_ignores_failures_cex :
    (generate_data cfg1 w3).outcomes.length = 1
    ∧ (generate_data cfg1 w3).completedCount = 0 := by
  refine ⟨by decide, by decide⟩

/-- C3 (amended): migrating a manifest of K files produces exactly K
outcomes, each `Moved` or `Failed`, with `succeeded + failed = K`, and
the outcomes are identical for every parallelism profile and worker
count; the report's running count, however, tallies only the successful
attempts: `completed_count = succeeded`. -/
theorem bulk_migration_counts (cfg : Config) (w : World)
    (h : checkDataExists w.probe = false) :
    (generate_data cfg w).outcomes.length = (generate_data cfg w).filenames.length
    ∧ (generate_data cfg w).outcomes.count TransferOutcome.Moved
        + (generate_data cfg w).outcomes.count TransferOutcome.Failed
        = (generate_data cfg w).filenames.length
    ∧ (generate_data cfg w).completedCount
        = (generate_data cfg w).outcomes.count TransferOutcome.Moved
    ∧ ∀ (b : Bool) (par : Nat),
        (generate_data { cfg with lighthouse := b }
            { w with defaultParallelism := par }).outcomes
          = (generate_data cfg w).outcomes := by
  rw [generate_data_outcomes cfg w h, generate_data_filenames cfg w h,
    generate_data_completedCount cfg w h]
  refine ⟨by simp, ?_, ?_, ?_⟩
  · rw [count_moved_add_failed]
  · rw [count_moved_eq]
  · intro b par
    rw [generate_data_outcomes { cfg with lighthouse := b }
      { w with defaultParallelism := par } h]
    simp [runFilenames]

theorem bulk_migration_counts_witness :
    checkDataExists w3.probe = false
    ∧ (generate_data cfg1 w3).completedCount
        = (generate_data cfg1 w3).outcomes.count TransferOutcome.Moved :=
  ⟨by decide, (bulk_migration_counts cfg1 w3 (by decide)).2.2.1⟩

/-- C4, counterexample: with Unity Catalog disabled (`UC_enabled`
false) and a non-default catalog, the run still issues the catalog,
schema and volume provisioning calls — the code guards them only on the
catalog name, never on `UC_enabled`. -/
theorem provisioning_without_uc_cex :
    cfg4.UC_enabled = false
    ∧ (generate_data cfg4 w1).trace.any isProvisioningEv = true := by
  refine ⟨rfl, by decide⟩

/-- C4 (amended): the catalog, schema and volume provisioning calls are
issued if and only if the run reaches the generation branch and the
catalog is not `hive_metastore`, regardless of `UC_enabled`. -/
theorem provisioning_iff_catalog_not_default (cfg : Config) (w : World) :
    (generate_data cfg w).trace.any isProvisioningEv = true
      ↔ (checkDataExists w.probe = false ∧ cfg.catalog ≠ "hive_metastore") := by
  by_cases h : checkDataExists w.probe = true
  · rw [generate_data_skip cfg w h]
    simp [h]
  · have h' : checkDataExists w.probe = false := by
      cases hx : checkDataExists w.probe
      · rfl
      · exact absurd hx h
    rw [generate_data_trace cfg w h']
    simp only [List.any_append]
    rw [(copy_directory_events_flags w.fsDirs (cfg.workspace_src_path ++ "/tools/datagen")
        driver_tmp_path true).2.1]
    rw [(DIGenEvents_flags w.jarExists w.child driver_tmp_path cfg.scale_factor
        (driver_out_path cfg.scale_factor)).2.1]
    rw [any_map_eq_false isProvisioningEv Event.mkdirsEv _ (fun _ => rfl)]
    rw [any_map_eq_false isProvisioningEv
      (fun f => Event.copyFileEv f
        (pyReplace f (driver_out_path cfg.scale_factor) (os_blob_out_path cfg)))
      (runFilenames cfg w) (fun _ => rfl)]
    by_cases hc : cfg.catalog = "hive_metastore"
    · simp [hc, h']
    · simp [hc, h', (provisioningEvents_flags cfg.catalog w.catalogExists).2.2.2]

theorem provisioning_iff_catalog_not_default_witness :
    (generate_data cfg1 w1).trace.any isProvisioningEv = true :=
  (provisioning_iff_catalog_not_default cfg1 w1).mpr ⟨by decide, by decide⟩

/-- C5, counterexample: Python's `replace` substitutes every
occurrence, so for a file whose relative path happens to repeat the
source root string, the computed destination differs from joining the
destination root with the relative path. -/
theorem replace_vs_join_cex :
    pyReplace (driver_out_path "1" ++ "/" ++ "local_disk0/tmp/tpcdi/sf=1/f.txt")
        (driver_out_path "1") "/Volumes/v/sf=1"
      ≠ "/Volumes/v/sf=1" ++ "/" ++ "local_disk0/tmp/tpcdi/sf=1/f.txt" := by
  decide

/-- C5 (amended): for every file whose relative path does not itself
contain the source-root string (in particular every ordinary generated
layout), substituting the source root by the destination root in the
absolute path equals joining the destination root with the relative
path; when the source root reoccurs inside the relative path,
replace-all rewrites that occurrence too and the two disagree. -/
theorem replace_equals_join_without_reoccurrence (root rel dest : String)
    (hne : root.data ≠ [])
    (h : strHasInfix root ("/" ++ rel) = false) :
    pyReplace (root ++ "/" ++ rel) root dest = dest ++ "/" ++ rel := by
  have hd : (root ++ "/" ++ rel).data = root.data ++ ('/' :: rel.data) := by
    rw [string_data_append, string_data_append, List.append_assoc]
    rfl
  have hsuf : ("/" ++ rel).data = '/' :: rel.data := by
    rw [string_data_append]
    rfl
  rw [strHasInfix, hsuf] at h
  have hk : ∃ k, (root.data ++ '/' :: rel.data).length = k + 1 := by
    match root.data, hne with
    | c :: t, _ => exact ⟨(t ++ '/' :: rel.data).length, by simp⟩
  obtain ⟨k, hk⟩ := hk
  simp only [pyReplace]
  rw [hd, hk, pyReplaceF_prefix root.data dest.data ('/' :: rel.data) k hne h]
  have hdest : (dest ++ "/" ++ rel).data = dest.data ++ ('/' :: rel.data) := by
    rw [string_data_append, string_data_append, List.append_assoc]
    rfl
  rw [← hdest]

theorem replace_equals_join_without_reoccurrence_witness :
    (strHasInfix (driver_out_path "1") ("/" ++ "Batch1/f.txt") = false)
    ∧ pyReplace (driver_out_path "1" ++ "/" ++ "Batch1/f.txt") (driver_out_path "1")
        "/Volumes/v/sf=1"
      = "/Volumes/v/sf=1" ++ "/" ++ "Batch1/f.txt" :=
  ⟨by decide, replace_equals_join_without_reoccurrence (driver_out_path "1")
    "Batch1/f.txt" "/Volumes/v/sf=1" (by decide) (by decide)⟩

/-- C6, counterexample: for a file two levels deep (`a/b/f.txt`) whose
first-level directory `a` was created, the computed destination parent
`<root>/a/b` is not among the directories the run creates, so the
per-file copy fails even though the source exists — the `Failed`
outcome is reachable for deeply nested files. -/
theorem deep_file_parent_missing_cex :
    copyfileSucceeds (createdDirs "/Volumes/v/sf=1" (some ["a"]))
      ("/Volumes/v/sf=1" ++ "/" ++ "a/b/f.txt") = false := by
  decide

/-- C6 (amended): creating the destination root plus the first-level
subdirectories guarantees the destination parent directory exists
exactly for files at depth at most one below the output root (a
slash-free name at the root, or a slash-free name inside an enumerated
first-level subdirectory); for files nested two or more levels deep the
parent directory is not created and the copy can fail. -/
theorem created_dirs_cover_shallow_files (blob : String) (sd : List String) :
    (∀ name : String, slashFree name = true →
      copyfileSucceeds (createdDirs blob (some sd)) (blob ++ "/" ++ name) = true)
    ∧ (∀ d name : String, d ∈ sd → slashFree name = true →
      copyfileSucceeds (createdDirs blob (some sd))
        (blob ++ "/" ++ d ++ "/" ++ name) = true) := by
  constructor
  · intro name hn
    rw [copyfileSucceeds, dirname_append_slashFree blob name hn, createdDirs]
    simp
  · intro d name hd hn
    rw [copyfileSucceeds, dirname_append_slashFree (blob ++ "/" ++ d) name hn,
      createdDirs]
    have hmem : blob ++ "/" ++ d ∈
        blob :: ((some sd).getD []).map (fun x => blob ++ "/" ++ x) :=
      List.mem_cons_of_mem _ (List.mem_map.mpr ⟨d, hd, rfl⟩)
    simpa using hmem

theorem created_dirs_cover_shallow_files_witness :
    slashFree "f.txt" = true
    ∧ copyfileSucceeds (createdDirs "/Volumes/v/sf=1" (some ["a"]))
        ("/Volumes/v/sf=1" ++ "/" ++ "f.txt") = true :=
  ⟨by decide, (created_dirs_cover_shallow_files "/Volumes/v/sf=1" ["a"]).1 "f.txt"
    (by decide)⟩

/-- C7: the existence probe returns true exactly when the OS path
exists and an error-free recursive walk reaches at least one regular
file; it returns false for a nonexistent path, and an error raised
while checking the contents is absorbed (the probe answers false and
the orchestrator proceeds past the gate instead of skipping). -/
theorem checkDataExists_characterization :
    (∀ pw : ProbeWorld,
      (checkDataExists pw = true ↔
        pw.pathExists = true ∧ ∃ entries, pw.walkResult = Except.ok entries ∧
          ∃ e ∈ entries, ∃ f ∈ e.files, pw.isfile (e.root ++ "/" ++ f) = true))
    ∧ (∀ pw : ProbeWorld, pw.pathExists = false → checkDataExists pw = false)
    ∧ (∀ (pw : ProbeWorld) (err : String), pw.walkResult = Except.error err →
        checkDataExists pw = false)
    ∧ (∀ (cfg : Config) (w : World) (err : String),
        w.probe.walkResult = Except.error err →
        (generate_data cfg w).outcome ≠ RunOutcome.Skipped) := by
  have herr : ∀ (pw : ProbeWorld) (err : String),
      pw.walkResult = Except.error err → checkDataExists pw = false := by
    intro pw err hw
    cases hpe : pw.pathExists <;> simp [checkDataExists, hpe, hw]
  refine ⟨?_, ?_, herr, ?_⟩
  · intro pw
    cases hpe : pw.pathExists
    · simp [checkDataExists, hpe]
    · cases hw : pw.walkResult with
      | error e => simp [checkDataExists, hpe, hw]
      | ok entries => simp [checkDataExists, hpe, hw, List.any_eq_true]
  · intro pw hpe
    simp [checkDataExists, hpe]
  · intro cfg w err hw
    exact generate_data_not_skipped cfg w (herr w.probe err hw)

theorem checkDataExists_characterization_witness :
    probeErr.walkResult = Except.error "io-error"
    ∧ checkDataExists probeErr = false :=
  ⟨rfl, checkDataExists_characterization.2.2.1 probeErr "io-error" rfl⟩

/-- C8: whenever the existence probe confirms data at the destination,
the run terminates in the `Skipped` state and its trace is free of
generator launches, provisioning calls, directory creations and file
copies. -/
theorem skipped_run_has_no_side_effects (cfg : Config) (w : World)
    (h : checkDataExists w.probe = true) :
    (generate_data cfg w).outcome = RunOutcome.Skipped
    ∧ (generate_data cfg w).trace.any isLaunchEv = false
    ∧ (generate_data cfg w).trace.any isProvisioningEv = false
    ∧ (generate_data cfg w).trace.any isMkdirsEv = false
    ∧ copyCount (generate_data cfg w).trace = 0 := by
  rw [generate_data_skip cfg w h]
  exact ⟨rfl, rfl, rfl, rfl, rfl⟩

theorem skipped_run_has_no_side_effects_witness :
    checkDataExists w8.probe = true
    ∧ (generate_data cfg1 w8).outcome = RunOutcome.Skipped :=
  ⟨by decide, (skipped_run_has_no_side_effects cfg1 w8 (by decide)).1⟩

/-- C9: when the jar exists, `DIGen` launches exactly
`java -Xmx2g -jar <toolDir>DIGen.jar -sf <scaleFactor> -o <outputDir>`
with working directory the tool directory, and writes a blank line and
then `YES`, each newline-terminated and flushed separately, before any
stdout read (hypotheses: the paths carry no spaces, as `shlex.split`
would otherwise cut them). -/
theorem digen_launch_contract (p sf o : String) (child : ChildProcess)
    (hp : p.data.all (· ≠ ' ') = true)
    (hsf : sf.data ≠ [] ∧ sf.data.all (· ≠ ' ') = true)
    (ho : o.data ≠ [] ∧ o.data.all (· ≠ ' ') = true) :
    DIGenEvents true child p sf o =
      [Event.javaVersionCheck,
        Event.digenLaunch
          ["java", "-Xmx2g", "-jar", p ++ "DIGen.jar", "-sf", sf, "-o", o] p,
        Event.stdinWrite "\n", Event.stdinFlush,
        Event.stdinWrite "YES\n", Event.stdinFlush]
      ++ child.stdoutLines.map (fun _ => Event.stdoutRead)
      ++ [Event.stderrRead] := by
  have hargs : wsSplitStr (digenCmd p sf o)
      = ["java", "-Xmx2g", "-jar", p ++ "DIGen.jar", "-sf", sf, "-o", o] := by
    rw [wsSplitStr, digenCmd_data, wsSplit_wsJoin]
    · rfl
    · intro t ht
      simp only [List.mem_cons, List.not_mem_nil, or_false] at ht
      rcases ht with rfl | rfl | rfl | rfl | rfl | rfl | rfl | rfl
      · decide
      · decide
      · decide
      · refine isToken_of_nonempty_nospace _ (by simp) ?_
        rw [List.all_append]
        refine (Bool.and_eq_true _ _).mpr ⟨hp, by decide⟩
      · decide
      · exact isToken_of_nonempty_nospace _ hsf.1 hsf.2
      · decide
      · exact isToken_of_nonempty_nospace _ ho.1 ho.2
  rw [DIGenEvents, hargs]
  simp

theorem digen_launch_contract_witness :
    ("/local_disk0/tmp/tpcdi/datagen/" : String).data.all (· ≠ ' ') = true
    ∧ DIGenEvents true { exitCode := 0, stdoutLines := [], stderrOutput := "" }
        "/local_disk0/tmp/tpcdi/datagen/" "10" "/local_disk0/tmp/tpcdi/sf=10"
      = [Event.javaVersionCheck,
          Event.digenLaunch
            ["java", "-Xmx2g", "-jar", "/local_disk0/tmp/tpcdi/datagen/" ++ "DIGen.jar",
              "-sf", "10", "-o", "/local_disk0/tmp/tpcdi/sf=10"]
            "/local_disk0/tmp/tpcdi/datagen/",
          Event.stdinWrite "\n", Event.stdinFlush,
          Event.stdinWrite "YES\n", Event.stdinFlush]
        ++ (([] : List String).map (fun _ => Event.stdoutRead))
        ++ [Event.stderrRead] :=
  ⟨by decide,
    digen_launch_contract "/local_disk0/tmp/tpcdi/datagen/" "10"
      "/local_disk0/tmp/tpcdi/sf=10"
      { exitCode := 0, stdoutLines := [], stderrOutput := "" }
      (by decide) ⟨by decide, by decide⟩ ⟨by decide, by decide⟩⟩

/-- C10: `copy_directory` reports no error to its caller in its two
failure modes — a missing source directory (`FileNotFoundError`) or a
pre-existing target with `overwrite` false (`FileExistsError`) both
return `None` — and with `overwrite` true an existing target tree is
removed before the copy; `generate_data` then proceeds to the
generation step regardless of the copy's result. -/
theorem copy_directory_contract :
    (∀ (fs : List String) (src tgt : String) (ov : Bool),
      fs.contains src = false → (copy_directory fs src tgt ov).result = none)
    ∧ (∀ (fs : List String) (src tgt : String),
      fs.contains tgt = true → (copy_directory fs src tgt false).result = none)
    ∧ (∀ (fs : List String) (src tgt : String),
      fs.contains tgt = true →
        (copy_directory fs src tgt true).events.head? = some (Event.rmtreeEv tgt))
    ∧ (∀ (cfg : Config) (w : World), checkDataExists w.probe = false →
        Event.javaVersionCheck ∈ (generate_data cfg w).trace) := by
  refine ⟨?_, ?_, ?_, javaVersionCheck_mem_trace⟩
  · intro fs src tgt ov hc
    have hsrc : src ∉ fs := by simpa using hc
    have hsrc2 : src ∉ rmtreeFS fs tgt :=
      fun hmem => hsrc (List.mem_filter.mp hmem).1
    rw [copy_directory]
    by_cases h1 : tgt ∈ fs ∧ ov = true
    · simp [h1, hsrc2]
    · simp [h1, hsrc]
  · intro fs src tgt hc
    have htgt : tgt ∈ fs := by simpa using hc
    rw [copy_directory]
    by_cases hs : src ∈ fs <;> simp [hs, htgt]
  · intro fs src tgt hc
    have htgt : tgt ∈ fs := by simpa using hc
    rw [copy_directory]
    by_cases hs : src ∈ rmtreeFS fs tgt <;>
      by_cases ht2 : tgt ∈ rmtreeFS fs tgt <;>
        simp [htgt, hs, ht2]

theorem copy_directory_contract_witness :
    (([] : List String).contains "/src" = false)
    ∧ (copy_directory [] "/src" "/tgt" true).result = none :=
  ⟨by decide, copy_directory_contract.1 [] "/src" "/tgt" true (by decide)⟩

end TPCDI

